import Mathlib

/-!
Shallow embedding of src/main.py (a Modbus register client) and proofs
about its register map, value codec, batch reader, register editor and
heating controller.

Modelling conventions:
* Python integers are `Int`; the 16-bit register words travelling over the
  wire are `Nat` (pymodbus delivers them as unsigned 16-bit values).
* Python floats never undergo arithmetic in this program, only byte
  reinterpretation through struct.pack / struct.unpack, so a float value is
  modelled by its IEEE-754 binary32 bit pattern (a `Nat` below 2 ^ 32).
* A function that can raise a Python exception is modelled with
  `Except PyExn`; an `Except.error` is an exception propagating out of the
  function uncaught, while ordinary returns are `Except.ok`.
* The injected Modbus connection is modelled by two function parameters:
  `rt address length`, returning `none` when the response has isError true
  and `some regs` with the register words otherwise, and `wt address words`,
  returning the Boolean acknowledgement (false when isError is true).
-/

/-- Python exceptions that the embedded fragments can raise uncaught. -/
inductive PyExn where
  | indexError
  | structError
  | valueError
deriving DecidableEq

/-- Wire types appearing in the register map: the `type` field of each
catalog entry is either the string uint32 or the string float. -/
inductive WireType where
  | uint32
  | float
deriving DecidableEq

/-- One register descriptor: one value of the `registers` dict
(main.py lines 13-19). Fields in order: address, type, length, unit,
description, access. -/
structure Reg where
  address : Nat
  type : WireType
  length : Nat
  unit : String
  description : String
  access : String
deriving DecidableEq

/-- The register map of main.py lines 13-19, in insertion order (Python
dicts iterate in insertion order). -/
def registers : List (String × Reg) :=
  [ ("state", ⟨30, .uint32, 2, "", "State", "rw"⟩),
    ("sptw", ⟨32, .float, 2, "°C", "Target Water Temperature", "rw"⟩),
    ("sptwh", ⟨34, .float, 2, "K", "Hysteresis Water Temperature", "rw"⟩),
    ("spp", ⟨36, .uint32, 2, "W", "Target Heating Power", "rw"⟩),
    ("ni", ⟨38, .uint32, 2, "ms", "Soldering Interval", "rw"⟩) ]

/-- Words emitted by write_uint32 (main.py line 52):
`[(value >> 16) & 0xFFFF, value & 0xFFFF]`. Python `>>` on an int is floor
division by the power of two, which for a positive divisor equals
`Int.ediv`, written `/` below; Python `&` with the mask 0xFFFF is the
nonnegative remainder modulo 2 ^ 16, which is `Int.emod`, written `%`
below (both Lean operators are the Euclidean ones, which agree with the
Python floor operators whenever the divisor is positive). Both components
are nonnegative, so `Int.toNat` is lossless. There is no range check in
the source: every integer input produces a word list. -/
def uint32_register_values (value : Int) : List Nat :=
  [((value / 65536) % 65536).toNat, (value % 65536).toNat]

/-- The decode expression of read_uint32 (main.py line 37):
`(registers[0] << 16) | registers[1]`. Indexing a response list shorter
than 2 raises IndexError; extra words beyond the first two are ignored. -/
def read_uint32_registers (regs : List Nat) : Except PyExn Nat :=
  match regs with
  | r0 :: r1 :: _ => .ok ((r0 <<< 16) ||| r1)
  | _ => .error .indexError

/-- Words emitted by write_float (main.py lines 41-42) on a value whose
binary32 bit pattern is `bits`: struct.pack with format >f writes the four
bytes of `bits` most significant first, and struct.unpack with format >HH
reads them back as two big-endian 16-bit words, i.e. the high and low
16-bit halves of `bits`. -/
def float_register_values (bits : Nat) : List Nat :=
  [bits / 65536, bits % 65536]

/-- The decode expression of read_float (main.py lines 27-29): struct.pack
with format >HH (raising IndexError when the list is shorter than 2;
struct.error unless both words fit in 16 bits) followed by struct.unpack
with format >f, whose result is the float with the reassembled binary32
bit pattern. Extra words beyond the first two are ignored. -/
def read_float_registers (regs : List Nat) : Except PyExn Nat :=
  match regs with
  | r0 :: r1 :: _ =>
      if r0 < 65536 ∧ r1 < 65536 then .ok (r0 * 65536 + r1)
      else .error .structError
  | _ => .error .indexError

/-- read_uint32 (main.py lines 31-37): on a response with isError true,
log and return None; otherwise decode the response registers. -/
def read_uint32 (rt : Nat → Nat → Option (List Nat)) (address length : Nat) :
    Except PyExn (Option Nat) :=
  match rt address length with
  | none => .ok none
  | some regs => (read_uint32_registers regs).map some

/-- read_float (main.py lines 21-29): on a response with isError true,
log and return None; otherwise decode the response registers. -/
def read_float (rt : Nat → Nat → Option (List Nat)) (address length : Nat) :
    Except PyExn (Option Nat) :=
  match rt address length with
  | none => .ok none
  | some regs => (read_float_registers regs).map some

/-- Observable effects of one write helper: the write_registers calls it
issued (address and words), the addresses it logged write errors for
(the logging.error call in the source), and its Boolean return value. -/
structure WriteTrace where
  calls : List (Nat × List Nat)
  errors : List Nat
  ok : Bool
deriving DecidableEq

/-- write_uint32 (main.py lines 50-58): build the word list, issue exactly
one write_registers call, and return False after logging the address when
the response has isError true, True otherwise. -/
def write_uint32 (wt : Nat → List Nat → Bool) (address : Nat) (value : Int) :
    WriteTrace :=
  let rv := uint32_register_values value
  let ack := wt address rv
  ⟨[(address, rv)], if ack then [] else [address], ack⟩

/-- write_float (main.py lines 39-48): build the word list from the
binary32 bit pattern, issue exactly one write_registers call, and return
False after logging the address when the response has isError true. -/
def write_float (wt : Nat → List Nat → Bool) (address : Nat) (bits : Nat) :
    WriteTrace :=
  let rv := float_register_values bits
  let ack := wt address rv
  ⟨[(address, rv)], if ack then [] else [address], ack⟩

/-- Per-register outcome of the read_all_values loop: the success print
(description, address, value, unit) or the failure print (description,
address). Keys are unique in the catalog, so the outcome is tagged with
the key of the entry the loop is visiting; a float value is its binary32
bit pattern. -/
inductive ReadOutcome where
  | ok (key : String) (value : Nat)
  | fail (key : String)
deriving DecidableEq

/-- One iteration of the read_all_values loop body (main.py lines 63-74)
for an entry that passed the access check. -/
def read_register (rt : Nat → Nat → Option (List Nat)) (key : String) (reg : Reg) :
    Except PyExn ReadOutcome := do
  let v ← match reg.type with
    | .float => read_float rt reg.address reg.length
    | .uint32 => read_uint32 rt reg.address reg.length
  pure (match v with
    | some n => .ok key n
    | none => .fail key)

/-- The read_all_values loop (main.py lines 60-74) over a remaining list of
catalog entries: entries whose access is r or rw are read in order, each
producing one outcome; an uncaught exception aborts the remainder. -/
def read_all_values_aux (rt : Nat → Nat → Option (List Nat)) :
    List (String × Reg) → Except PyExn (List ReadOutcome)
  | [] => .ok []
  | (key, reg) :: rest =>
    if reg.access = "r" ∨ reg.access = "rw" then do
      let o ← read_register rt key reg
      let os ← read_all_values_aux rt rest
      pure (o :: os)
    else read_all_values_aux rt rest

/-- read_all_values (main.py lines 60-74) over the full catalog. -/
def read_all_values (rt : Nat → Nat → Option (List Nat)) :
    Except PyExn (List ReadOutcome) :=
  read_all_values_aux rt registers

/-- Nonempty string of ASCII decimal digits. -/
def all_digits (l : List Char) : Bool := !l.isEmpty && l.all Char.isDigit

/-- Numeric value of a decimal digit string. -/
def digits_to_nat (l : List Char) : Nat :=
  l.foldl (fun a c => a * 10 + (c.toNat - 48)) 0

/-- ASCII whitespace stripped by the Python str.strip default. -/
def is_py_space (c : Char) : Bool :=
  c = ' ' || c = '\t' || c = '\n' || c = '\r' || c = '\x0b' || c = '\x0c'

/-- Strip leading and trailing whitespace from a character list. -/
def trim_chars (l : List Char) : List Char :=
  ((l.dropWhile is_py_space).reverse.dropWhile is_py_space).reverse

/-- Drop one leading sign character if present. -/
def drop_sign (l : List Char) : List Char :=
  match l with
  | c :: r => if c = '-' || c = '+' then r else l
  | [] => []

/-- Split a character list at every occurrence of the separator. -/
def split_char (c : Char) : List Char → List (List Char)
  | [] => [[]]
  | x :: xs =>
    match split_char c xs with
    | [] => [[x]]
    | h :: t => if x = c then [] :: h :: t else (x :: h) :: t

/-- Model of the Python builtin int applied to a string (main.py lines 95
and 111-112): surrounding whitespace is stripped, then an optional sign
followed by a nonempty run of decimal digits; anything else raises
ValueError. (Python additionally allows underscores between digits and
non-ASCII digits; no input in this development uses them.) -/
def py_int_of_string (s : String) : Except PyExn Int :=
  match trim_chars s.data with
  | '-' :: ds =>
      if all_digits ds then .ok (-(digits_to_nat ds : Int)) else .error .valueError
  | '+' :: ds =>
      if all_digits ds then .ok (digits_to_nat ds : Int) else .error .valueError
  | ds =>
      if all_digits ds then .ok (digits_to_nat ds : Int) else .error .valueError

/-- Mantissa of the Python float literal grammar: digits, digits dot,
digits dot digits, or dot digits. -/
def mantissa_ok (m : List Char) : Bool :=
  match split_char '.' m with
  | [a] => all_digits a
  | [a, b] => a.all Char.isDigit && b.all Char.isDigit && (!a.isEmpty || !b.isEmpty)
  | _ => false

/-- Exponent of the Python float literal grammar: optional sign then
nonempty digits. -/
def exponent_ok (ex : List Char) : Bool := all_digits (drop_sign ex)

/-- Does the Python builtin float accept the string (main.py line 93)?
Whitespace is stripped; an optional sign precedes either one of the
case-insensitive words inf, infinity, nan, or a decimal mantissa with an
optional exponent. Strings such as abc raise ValueError. (Underscores
between digits are again omitted; no input here uses them.) -/
def py_float_accepts (s : String) : Bool :=
  let t := (trim_chars s.data).map Char.toLower
  let u := drop_sign t
  if u = ['i', 'n', 'f'] || u = ['i', 'n', 'f', 'i', 'n', 'i', 't', 'y'] ||
      u = ['n', 'a', 'n'] then true
  else
    match split_char 'e' u with
    | [m] => mantissa_ok m
    | [m, ex] => mantissa_ok m && exponent_ok ex
    | _ => false

/-- Printed outcome of one change_value iteration: the invalid-key retry
message, the success message, or the failure message. -/
inductive ChangeOutcome where
  | invalidKey
  | updated
  | writeFailed
deriving DecidableEq

/-- One iteration of the change_value loop (main.py lines 83-106) on
register key `reg_key` and raw user input `value`: dict membership and
access check, then parse with float or int (an unparseable string raises
an uncaught ValueError before any transport call), then write_float or
write_uint32. The first component is the printed outcome or the uncaught
exception; the second lists the write_registers calls issued. `f32` gives
the binary32 bit pattern that the Python float builtin followed by
struct.pack with format >f produces for an accepted string; IEEE-754
decimal-to-float rounding is external library behaviour, so it is a
parameter of the model. -/
def change_value (f32 : String → Nat) (wt : Nat → List Nat → Bool)
    (reg_key value : String) :
    Except PyExn ChangeOutcome × List (Nat × List Nat) :=
  match registers.find? (fun p => p.1 = reg_key) with
  | none => (.ok .invalidKey, [])
  | some (_, reg) =>
    if reg.access ≠ "rw" then (.ok .invalidKey, [])
    else
      match reg.type with
      | .float =>
        if py_float_accepts value then
          let tr := write_float wt reg.address (f32 value)
          (.ok (if tr.ok then .updated else .writeFailed), tr.calls)
        else (.error .valueError, [])
      | .uint32 =>
        match py_int_of_string value with
        | .error e => (.error e, [])
        | .ok v =>
          let tr := write_uint32 wt reg.address v
          (.ok (if tr.ok then .updated else .writeFailed), tr.calls)

/-- Address of a register key in the catalog (the Python dict subscript
registers[k]; every key this program subscripts is present, so the default
branch is never reached). -/
def reg_address (k : String) : Nat :=
  match registers.find? (fun p => p.1 = k) with
  | some (_, reg) => reg.address
  | none => 0

/-- Observable result of control_heating: the write_registers calls issued,
the addresses logged as write errors, and whether the combined
Updated heating system message was printed. -/
structure HeatingResult where
  calls : List (Nat × List Nat)
  errors : List Nat
  success : Bool
deriving DecidableEq

/-- control_heating (main.py lines 108-117) after both inputs parsed:
write_uint32 to the spp register, and, only when that returned True
(Python `and` short-circuits), write_uint32 to the state register; the
success print happens exactly when both returned True. -/
def control_heating (wt : Nat → List Nat → Bool)
    (target_power system_state : Int) : HeatingResult :=
  let t1 := write_uint32 wt (reg_address "spp") target_power
  if t1.ok then
    let t2 := write_uint32 wt (reg_address "state") system_state
    ⟨t1.calls ++ t2.calls, t1.errors ++ t2.errors, t2.ok⟩
  else
    ⟨t1.calls, t1.errors, false⟩

/-- The finiteness predicate on a binary32 bit pattern: the exponent field
(bits 23-30) is not all ones, i.e. the value is neither an infinity nor a
NaN. -/
def is_finite_b32 (bits : Nat) : Bool := (bits / 8388608) % 256 ≠ 255

/-! ## Arithmetic helpers -/

/-- Combining a shifted high word with a low word below 2 ^ 16 is plain
positional addition. -/
theorem lor_sixteen (a b : Nat) (hb : b < 65536) : (a <<< 16) ||| b = 65536 * a + b := by
  have hb2 : b < 2 ^ 16 := by omega
  calc (a <<< 16) ||| b = a * 2 ^ 16 ||| b := by rw [Nat.shiftLeft_eq]
    _ = 2 ^ 16 * a ||| b := by rw [Nat.mul_comm]
    _ = 2 ^ 16 * a + b := (Nat.mul_add_lt_is_or hb2 a).symm
    _ = 65536 * a + b := by norm_num

/-- Decoding the two words that write_uint32 emits for any integer value
always succeeds and yields the value reduced modulo 2 ^ 32. -/
theorem uint32_combine (v : Int) :
    read_uint32_registers (uint32_register_values v) = .ok ((v % 4294967296).toNat) := by
  show Except.ok ((((v / 65536) % 65536).toNat <<< 16) ||| (v % 65536).toNat) = _
  rw [lor_sixteen _ _ (by omega)]
  congr 1
  omega

/-! ## Claims -/

/-- Claim C1: for every integer v in [0, 2 ^ 32 - 1], encoding v as a
UInt32 into the two 16-bit words written by write_uint32 and then decoding
those two words as read by read_uint32 yields v again. -/
theorem uint32_roundtrip (v : Nat) (h : v < 4294967296) :
    read_uint32_registers (uint32_register_values (v : Int)) = .ok v := by
  rw [uint32_combine]
  congr 1
  omega

/-- Witness for claim C1 at v = 305419896 (0x12345678). -/
theorem uint32_roundtrip_witness :
    305419896 < 4294967296 ∧
      read_uint32_registers (uint32_register_values ((305419896 : Nat) : Int)) =
        .ok 305419896 :=
  ⟨by norm_num, uint32_roundtrip 305419896 (by norm_num)⟩

/-- Claim C2: for every finite IEEE-754 binary32 value (given by its bit
pattern), encoding it as the two big-endian 16-bit words of write_float
and decoding them back as in read_float yields the value bit-exactly; the
two directions use the same word order. The source only reinterprets
bytes, so the round trip is an identity on the bit pattern. -/
theorem float_roundtrip (bits : Nat) (h32 : bits < 4294967296)
    (_hfin : is_finite_b32 bits = true) :
    read_float_registers (float_register_values bits) = .ok bits := by
  show (if bits / 65536 < 65536 ∧ bits % 65536 < 65536 then
      Except.ok (bits / 65536 * 65536 + bits % 65536)
    else Except.error PyExn.structError) = Except.ok bits
  rw [if_pos ⟨by omega, by omega⟩]
  congr 1
  omega

/-- Witness for claim C2 at bits = 1108567654 (0x42126666, the binary32
nearest to 36.6). -/
theorem float_roundtrip_witness :
    1108567654 < 4294967296 ∧ is_finite_b32 1108567654 = true ∧
      read_float_registers (float_register_values 1108567654) = .ok 1108567654 :=
  ⟨by norm_num, by decide, float_roundtrip 1108567654 (by norm_num) (by decide)⟩

/-- Claim C3: in a batch read over the full catalog in which exactly the
register keyed sptwh (address 34) suffers a transport failure while every
other register returns a well-formed two-word response, the outcome list
contains a successful outcome for every other register in catalog
iteration order and exactly one failure outcome, for sptwh; the failure
does not stop the remaining registers from being read. -/
theorem read_all_isolates_failure (rt : Nat → Nat → Option (List Nat))
    (a0 a1 b0 b1 c0 c1 d0 d1 : Nat)
    (h30 : rt 30 2 = some [a0, a1])
    (h32 : rt 32 2 = some [b0, b1]) (hb0 : b0 < 65536) (hb1 : b1 < 65536)
    (h34 : rt 34 2 = none)
    (h36 : rt 36 2 = some [c0, c1])
    (h38 : rt 38 2 = some [d0, d1]) :
    read_all_values rt = .ok
      [.ok "state" ((a0 <<< 16) ||| a1),
       .ok "sptw" (b0 * 65536 + b1),
       .fail "sptwh",
       .ok "spp" ((c0 <<< 16) ||| c1),
       .ok "ni" ((d0 <<< 16) ||| d1)] := by
  simp [read_all_values, read_all_values_aux, registers, read_register, read_uint32,
    read_float, read_uint32_registers, read_float_registers, h30, h32, h34, h36, h38,
    hb0, hb1, bind, Except.bind, Except.map, pure, Except.pure]

/-- Witness for claim C3: a transport that fails at address 34 and answers
[1, 2] everywhere else. -/
theorem read_all_isolates_failure_witness :
    read_all_values (fun a _ => if a = 34 then none else some [1, 2]) = .ok
      [.ok "state" 65538, .ok "sptw" 65538, .fail "sptwh",
       .ok "spp" 65538, .ok "ni" 65538] :=
  read_all_isolates_failure _ 1 2 1 2 1 2 1 2 rfl rfl (by decide) (by decide) rfl rfl rfl

/-- Counterexample to claim C4: encoding -1 as UInt32 does not fail with
ValueOutOfRange; write_uint32 has no range check and simply produces the
word list [65535, 65535]. -/
theorem uint32_no_range_check_counterexample :
    uint32_register_values (-1) = [65535, 65535] := by decide

/-- Claim C4 as amended: encoding a value outside [0, 2 ^ 32 - 1] as
UInt32 never fails; the encoder silently wraps modulo 2 ^ 32, so -1
produces the same words as 2 ^ 32 - 1 and 2 ^ 32 the same words as 0. -/
theorem uint32_wraps_instead_of_failing :
    uint32_register_values (-1) = uint32_register_values 4294967295 ∧
    uint32_register_values 4294967296 = uint32_register_values 0 := by decide

/-- Counterexample to claim C5: the word sequence [1, 2, 3] has length
different from 2, yet decoding it succeeds for both wire types (the extra
word is silently ignored); neither decoder ever produces a distinguished
MalformedInput failure. -/
theorem decode_length_three_succeeds :
    read_uint32_registers [1, 2, 3] = .ok 65538 ∧
    read_float_registers [1, 2, 3] = .ok 65538 := ⟨rfl, rfl⟩

/-- Claim C5 as amended: for either wire type, decoding a word sequence of
length below 2 raises an uncaught IndexError (an unhandled fault, not a
distinguished failure result), while a sequence of length above 2 is not
rejected: decoding behaves as on its first two words alone. -/
theorem decode_short_raises_long_succeeds :
    (∀ regs : List Nat, regs.length < 2 →
      read_uint32_registers regs = .error .indexError ∧
      read_float_registers regs = .error .indexError) ∧
    (∀ r0 r1 rest, read_uint32_registers (r0 :: r1 :: rest) = read_uint32_registers [r0, r1] ∧
      read_float_registers (r0 :: r1 :: rest) = read_float_registers [r0, r1]) := by
  constructor
  · intro regs h
    match regs with
    | [] => exact ⟨rfl, rfl⟩
    | [r] => exact ⟨rfl, rfl⟩
    | r0 :: r1 :: rest => simp at h; omega
  · intro r0 r1 rest
    exact ⟨rfl, rfl⟩

/-- Witness for the amended claim C5 at the empty word sequence. -/
theorem decode_short_raises_witness :
    read_uint32_registers [] = Except.error PyExn.indexError :=
  (decode_short_raises_long_succeeds.1 [] (by decide)).1

/-- Claim C6: an editor write of the value 1 to the key state (a ReadWrite
UInt32 register at address 30) succeeds, issuing exactly one transport
write, namely writeWords of the words [0, 1] at address 30, and no other
transport call, whatever the float conversion and the transport do
elsewhere. -/
theorem editor_writes_state_one (f32 : String → Nat) (wt : Nat → List Nat → Bool)
    (h : wt 30 [0, 1] = true) :
    change_value f32 wt "state" "1" = (.ok .updated, [(30, [0, 1])]) := by
  have step : change_value f32 wt "state" "1" =
      (Except.ok (if wt 30 [0, 1] = true then ChangeOutcome.updated
        else ChangeOutcome.writeFailed), [(30, [0, 1])]) := rfl
  rw [step, h]
  simp

/-- Witness for claim C6 with a transport acknowledging every write. -/
theorem editor_writes_state_one_witness :
    change_value (fun _ => 0) (fun _ _ => true) "state" "1" =
      (.ok .updated, [(30, [0, 1])]) :=
  editor_writes_state_one _ _ rfl

/-- Counterexample to claim C7: the editor write of the unparseable value
abc to the Float32 register sptw does not surface an InvalidValueFormat
result; the float builtin raises a ValueError that nothing in change_value
or main catches, modelled by the Except.error outcome, so the session is
terminated by an unhandled fault (zero transport calls are issued). -/
theorem editor_bad_float_uncaught_counterexample :
    change_value (fun _ => 0) (fun _ _ => true) "sptw" "abc" =
      (.error .valueError, []) := rfl

/-- Claim C7 as amended: an editor write whose value does not parse as the
register wire type issues zero transport calls, but it fails by raising an
uncaught ValueError that terminates the session, not by returning a
distinguished InvalidValueFormat result. -/
theorem editor_bad_float_raises_no_calls (f32 : String → Nat)
    (wt : Nat → List Nat → Bool) :
    change_value f32 wt "sptw" "abc" = (.error .valueError, []) := rfl

/-- Claim C8: the heating controller writes the power register (address
36) first and then the state register (address 30); the success message is
printed exactly when both writes are acknowledged, and when the state
write fails after the power write succeeded, the result carries the
logged state-register failure (address 30) while the call list shows the
power write already issued first and acknowledged - the non-atomicity is
observable. -/
theorem heating_two_writes_success_iff (wt : Nat → List Nat → Bool) (p s : Int) :
    ((control_heating wt p s).success = true ↔
      wt 36 (uint32_register_values p) = true ∧ wt 30 (uint32_register_values s) = true) ∧
    (wt 36 (uint32_register_values p) = true → wt 30 (uint32_register_values s) = false →
      control_heating wt p s =
        ⟨[(36, uint32_register_values p), (30, uint32_register_values s)], [30], false⟩) := by
  have ha : reg_address "spp" = 36 := rfl
  have hb : reg_address "state" = 30 := rfl
  cases h1 : wt 36 (uint32_register_values p) <;>
    cases h2 : wt 30 (uint32_register_values s) <;>
      simp [control_heating, write_uint32, ha, hb, h1, h2]

/-- Witness for claim C8: power 500 and state 1 against a transport that
acknowledges address 36 and fails address 30. -/
theorem heating_two_writes_success_iff_witness :
    control_heating (fun a _ => decide (a = 36)) 500 1 =
      ⟨[(36, uint32_register_values 500), (30, uint32_register_values 1)], [30], false⟩ :=
  (heating_two_writes_success_iff (fun a _ => decide (a = 36)) 500 1).2 rfl rfl

/-- Claim C9: for every integer v, the UInt32 write path emits exactly the
two words of line 52, each a 16-bit value, and the emitted pair represents
v modulo 2 ^ 32 (decoding it back gives v mod 2 ^ 32); no input value is
rejected by the encoder. -/
theorem write_uint32_words_total_mod (v : Int) :
    (uint32_register_values v).length = 2 ∧
    (∀ w ∈ uint32_register_values v, w < 65536) ∧
    read_uint32_registers (uint32_register_values v) = .ok ((v % 4294967296).toNat) := by
  refine ⟨rfl, ?_, uint32_combine v⟩
  intro w hw
  simp [uint32_register_values] at hw
  rcases hw with rfl | rfl <;> omega

/-- Claim C10: when the power-register write fails, the Python `and`
short-circuits, so no transport write to the state register (address 30)
is issued at all: the only call issued is the failed power write. -/
theorem heating_power_failure_skips_state (wt : Nat → List Nat → Bool) (p s : Int)
    (h : wt 36 (uint32_register_values p) = false) :
    control_heating wt p s = ⟨[(36, uint32_register_values p)], [36], false⟩ ∧
    ∀ c ∈ (control_heating wt p s).calls, c.1 ≠ 30 := by
  have ha : reg_address "spp" = 36 := rfl
  have h1 : control_heating wt p s = ⟨[(36, uint32_register_values p)], [36], false⟩ := by
    simp [control_heating, write_uint32, ha, h]
  refine ⟨h1, ?_⟩
  rw [h1]
  simp

/-- Witness for claim C10 with a transport failing every write. -/
theorem heating_power_failure_skips_state_witness :
    control_heating (fun _ _ => false) 500 1 =
      ⟨[(36, uint32_register_values 500)], [36], false⟩ ∧
    ∀ c ∈ (control_heating (fun _ _ => false) 500 1).calls, c.1 ≠ 30 :=
  heating_power_failure_skips_state _ 500 1 rfl
